import Mathlib

/-!
Verification development for the ConfirmSure authorization and QR-identity
subsystem. The definitions below are shallow embeddings of the JavaScript
source: the static role→permission table and `hasPermission` from
`app/lib/auth.js`, the QR generator / validator from `lib/qr-generator`,
the products API route handlers, the batch route, and the middleware
rate limiter. Strings stand for JavaScript strings, `Option` for
nullable values, and external effects (the Supabase persistence layer,
`Math.random`) are passed in as explicit oracle parameters.
-/

namespace ConfirmSure

/-! ### Identity & Role Model (`app/lib/auth.js`) -/

/-- `PERMISSIONS.PRODUCTS` — `Object.values` in source order. -/
def productsPermissions : List String :=
  ["products:create", "products:read", "products:update", "products:delete"]

/-- `PERMISSIONS.FACTORIES` — `Object.values` in source order. -/
def factoriesPermissions : List String :=
  ["factories:create", "factories:read", "factories:update", "factories:delete"]

/-- `PERMISSIONS.USERS` — `Object.values` in source order. -/
def usersPermissions : List String :=
  ["users:create", "users:read", "users:update", "users:delete"]

/-- `PERMISSIONS.ANALYTICS` — `Object.values` in source order. -/
def analyticsPermissions : List String :=
  ["analytics:read"]

/-- `ROLE_PERMISSIONS[ROLES.ADMIN]`:
`Object.values(PERMISSIONS).flatMap(p => Object.values(p))`. -/
def adminPermissions : List String :=
  productsPermissions ++ factoriesPermissions ++ usersPermissions ++ analyticsPermissions

/-- `ROLE_PERMISSIONS[ROLES.FACTORY_MANAGER]` — the explicit list in the source. -/
def factoryManagerPermissions : List String :=
  ["products:create", "products:read", "products:update", "products:delete",
   "factories:read", "factories:update",
   "users:read",
   "analytics:read"]

/-- `ROLE_PERMISSIONS[ROLES.FACTORY_OPERATOR]` — the explicit list in the source. -/
def factoryOperatorPermissions : List String :=
  ["products:create", "products:read", "products:update"]

/-- `ROLE_PERMISSIONS[role] || []`: the object lookup keyed by the role
string, falling back to the empty list for a role absent from the table. -/
def rolePermissions (role : String) : List String :=
  if role = "admin" then adminPermissions
  else if role = "factory_manager" then factoryManagerPermissions
  else if role = "factory_operator" then factoryOperatorPermissions
  else []

/-- A row of `user_profiles` as selected by the auth code
(`role, is_active, factory_id`). -/
structure Profile where
  role : String
  factory_id : Option String
  is_active : Bool
deriving DecidableEq

/-- The object returned by `getCurrentUser`: the Supabase auth user spread
together with a `profile` field. `profile` is `Option` because
`hasPermission` is defensive against a missing profile (`!user.profile`). -/
structure User where
  id : String
  profile : Option Profile
deriving DecidableEq

/-- `hasPermission(user, permission)` from `app/lib/auth.js`:
`null`/profile-less users fail closed, otherwise membership in
`ROLE_PERMISSIONS[user.profile.role] || []`. -/
def hasPermission (user : Option User) (permission : String) : Bool :=
  match user with
  | none => false
  | some u =>
    match u.profile with
    | none => false
    | some prof => permission ∈ rolePermissions prof.role

/-! ### QR Identity Generator (`lib/qr-generator`) -/

/-- Decimal digit characters of a natural number, most significant first:
the embedding of JavaScript number-to-string conversion as performed by
the template literal building the candidate code. -/
def natDigits : Nat → List Char
  | n =>
    if _h : n < 10 then [Nat.digitChar n]
    else natDigits (n / 10) ++ [Nat.digitChar (n % 10)]
decreasing_by exact Nat.div_lt_self (by omega) (by omega)

/-- `Math.floor(Math.random() * 900000) + 100000`: the uniform integer draw
in [0, 899999] is embedded as an arbitrary natural `draw` reduced modulo
900000 — the same set of reachable values. -/
def randomSixDigit (draw : Nat) : Nat :=
  draw % 900000 + 100000

/-- The candidate string built by the template literal from the drawn
number. -/
def qrCandidate (randomNum : Nat) : String :=
  "CS-" ++ ⟨natDigits randomNum⟩

/-- `validateQRCodeFormat(qrCode)`: the test of the fixed regular
expression matching the literal characters C, S, - followed by exactly six
ASCII decimal digits, anchored at both ends. -/
def validateQRCodeFormat (qrCode : String) : Bool :=
  match qrCode.data with
  | 'C' :: 'S' :: '-' :: rest => rest.length == 6 && rest.all (·.isDigit)
  | _ => false

/-- Outcome of the Supabase `.single()` existence query on
`products.qr_code`: error code PGRST116 means no matching row, a returned
row means the candidate is taken, anything else is a database error. -/
inductive QueryOutcome where
  | noRow
  | found
  | dbError (message : String)
deriving DecidableEq

/-- The errors `generateUniqueQRCode` throws: the 100-attempt exhaustion
message, or a wrapped database error. -/
inductive GenError where
  | exhaustion
  | dbError (message : String)
deriving DecidableEq

/-- `maxAttempts` in `generateUniqueQRCode`. -/
def maxAttempts : Nat := 100

/-- The `while (attempts < maxAttempts)` loop of `generateUniqueQRCode`,
with `fuel = maxAttempts - attempts` making the bounded loop structural.
`oracle` is the per-candidate existence query, `draws` the stream of
random draws (indexed by attempt number). Returns the result together
with the number of oracle queries performed. -/
def generateLoop (oracle : String → QueryOutcome) (draws : Nat → Nat) :
    Nat → Nat → Except GenError String × Nat
  | _, 0 => (.error .exhaustion, 0)
  | attempt, fuel + 1 =>
    let qrCode := qrCandidate (randomSixDigit (draws attempt))
    match oracle qrCode with
    | .noRow => (.ok qrCode, 1)
    | .dbError m => (.error (.dbError m), 1)
    | .found =>
      let rest := generateLoop oracle draws (attempt + 1) fuel
      (rest.1, rest.2 + 1)

/-- `generateUniqueQRCode()` from `lib/qr-generator`, with the persistence
layer and the RNG as explicit oracles. -/
def generateUniqueQRCode (oracle : String → QueryOutcome) (draws : Nat → Nat) :
    Except GenError String × Nat :=
  generateLoop oracle draws 0 maxAttempts

/-- The errors `generateBatchQRCodes` throws: the 1000-code ceiling
message, or an error rethrown from a `generateUniqueQRCode` call. -/
inductive BatchError where
  | sizeExceeded
  | generation (e : GenError)
deriving DecidableEq

/-- The `for` loop of `generateBatchQRCodes`: each iteration performs one
full `generateUniqueQRCode` run (its own oracle and draw stream, since
the database evolves between calls); a thrown error aborts the batch. -/
def batchLoop (oracle : Nat → String → QueryOutcome) (draws : Nat → Nat → Nat) :
    Nat → Nat → Except BatchError (List String)
  | _, 0 => .ok []
  | i, c + 1 =>
    match (generateUniqueQRCode (oracle i) (draws i)).1 with
    | .error e => .error (.generation e)
    | .ok code =>
      match batchLoop oracle draws (i + 1) c with
      | .error e => .error e
      | .ok rest => .ok (code :: rest)

/-- `generateBatchQRCodes(count)` from `lib/qr-generator`: the count
ceiling check, then `count` sequential single generations. (The image
rendering per code is an external library call, outside this slice.) -/
def generateBatchQRCodes (count : Nat)
    (oracle : Nat → String → QueryOutcome) (draws : Nat → Nat → Nat) :
    Except BatchError (List String) :=
  if count > 1000 then .error .sizeExceeded
  else batchLoop oracle draws 0 count

/-! ### POST `/api/qr/generate` (`app/api/qr/generate/route.js`) -/

/-- The request-validation guard at the top of the handler:
`type === 'batch' && count > 100` is rejected with a 400 before any
generation. -/
def syncBatchRejected (reqType : String) (count : Nat) : Bool :=
  reqType == "batch" && count > 100

/-- Outcomes of the `type = 'batch'` path of POST `/api/qr/generate`. -/
inductive QrBatchPOSTOutcome where
  | badRequest400
  | serverError500 (e : BatchError)
  | ok200 (codes : List String)
deriving DecidableEq

/-- The `type = 'batch'` path of POST `/api/qr/generate` for an
authenticated caller: the count guard, then
`generateBatchQRCodesHandler` → `generateBatchQRCodes`; a thrown error is
caught by the surrounding try/catch and returned as a 500. -/
def qrGenerateBatchPOST (count : Nat)
    (oracle : Nat → String → QueryOutcome) (draws : Nat → Nat → Nat) :
    QrBatchPOSTOutcome :=
  if syncBatchRejected ("batch") count then .badRequest400
  else
    match generateBatchQRCodes count oracle draws with
    | .error e => .serverError500 e
    | .ok codes => .ok200 codes

/-! ### POST and GET `/api/products` (route handlers of the products API) -/

/-- Outcome of the authentication/permission stage shared by the handlers:
401 when `getCurrentUser()` returned null, 403 'Insufficient permissions'
when `hasPermission` fails, otherwise fall through to the body of the
handler. No tenant-related outcome exists at this stage. -/
inductive AuthStage where
  | unauthenticated401
  | insufficientPermissions403
  | proceed (u : User)
deriving DecidableEq

/-- The first two checks of the POST and GET handlers: `getCurrentUser()`
null test, then `hasPermission(user, perm)`. -/
def routeAuthStage (user : Option User) (perm : String) : AuthStage :=
  match user with
  | none => .unauthenticated401
  | some u =>
    if hasPermission (some u) perm then .proceed u
    else .insufficientPermissions403

/-- Outcome of the Supabase insert of the new product row:
`products.qr_code` carries a UNIQUE constraint (schema), so a concurrent
insert of the same code surfaces as a duplicate-key error here. The
handler inspects only truthiness of `error`, so all error shapes share
one branch. -/
inductive InsertOutcome where
  | ok
  | duplicateKey
  | otherError
deriving DecidableEq

/-- Outcomes of the create-product flow (POST `/api/products`). The two
500 variants correspond to the distinct messages in the source:
'Failed to create product' from the insert-error branch, and the outer
catch of an error thrown by the generator. -/
inductive CreateOutcome where
  | conflict409
  | created201 (qrCode : String) (factoryId : Option String)
  | failedToCreate500
  | internalError500 (e : GenError)
deriving DecidableEq

/-- `factory_id: user.profile.factory_id || body.factory_id` — the server
value wins whenever the profile carries one (null is the falsy case that
matters here). -/
def effectiveFactoryId (prof : Profile) (bodyFactoryId : Option String) :
    Option String :=
  match prof.factory_id with
  | some f => some f
  | none => bodyFactoryId

/-- Lines 49–97 of the POST `/api/products` handler, after authentication,
permission and schema validation all passed: generate a code when the body
carries none, run the route's own pre-insert existence check, then insert
the row with the server-derived factory_id. An insert error of any kind
returns the 500 'Failed to create product' — there is no retry of the
generate-and-insert cycle. -/
def productCreatePOST (prof : Profile) (bodyFactoryId : Option String)
    (bodyQrCode : Option String)
    (oracle : String → QueryOutcome) (draws : Nat → Nat)
    (precheckExists : String → Bool) (insert : String → InsertOutcome) :
    CreateOutcome :=
  let gen : Except GenError String :=
    match bodyQrCode with
    | some q => .ok q
    | none => (generateUniqueQRCode oracle draws).1
  match gen with
  | .error e => .internalError500 e
  | .ok qr =>
    if precheckExists qr then .conflict409
    else
      match insert qr with
      | .ok => .created201 qr (effectiveFactoryId prof bodyFactoryId)
      | .duplicateKey => .failedToCreate500
      | .otherError => .failedToCreate500

/-- Outcomes of the whole POST `/api/products` handler. -/
inductive ProductsPOSTOutcome where
  | unauthenticated401
  | insufficientPermissions403
  | result (r : CreateOutcome)
deriving DecidableEq

/-- The whole POST `/api/products` handler: the two authorization checks
in source order, then the create flow. The profile-less proceed branch is
unreachable because `hasPermission` fails closed without a profile. -/
def productsPOST (user : Option User) (bodyFactoryId : Option String)
    (bodyQrCode : Option String)
    (oracle : String → QueryOutcome) (draws : Nat → Nat)
    (precheckExists : String → Bool) (insert : String → InsertOutcome) :
    ProductsPOSTOutcome :=
  match routeAuthStage user ("products:create") with
  | .unauthenticated401 => .unauthenticated401
  | .insufficientPermissions403 => .insufficientPermissions403
  | .proceed u =>
    match u.profile with
    | some prof =>
      .result (productCreatePOST prof bodyFactoryId bodyQrCode oracle draws
        precheckExists insert)
    | none => .insufficientPermissions403

/-- A row of `products` as far as the tenant filter is concerned. -/
structure Product where
  id : String
  factory_id : String
deriving DecidableEq

/-- Lines 183–188 of the GET `/api/products` handler: the `eq('factory_id', v)`
constraint that is attached to the query. `some v` is an equality filter on
the (nullable) profile value, `none` means no factory constraint. Non-admin
callers always get their own `profile.factory_id`; the client-supplied
`factory_id` search parameter is consulted only for admins. -/
def appliedFactoryFilter (prof : Profile) (clientFactoryId : Option String) :
    Option (Option String) :=
  if prof.role ≠ "admin" then some prof.factory_id
  else
    match clientFactoryId with
    | some c => some (some c)
    | none => none

/-- The effect of the factory filter on the result set: `eq` keeps exactly
the rows whose `factory_id` equals the filter value (an SQL equality
against null keeps nothing). -/
def listProducts (db : List Product) (prof : Profile)
    (clientFactoryId : Option String) : List Product :=
  db.filter fun p =>
    match appliedFactoryFilter prof clientFactoryId with
    | none => true
    | some v => some p.factory_id == v

/-! ### Session resolution (`getCurrentUser` in `app/lib/auth.js`) -/

/-- The Supabase auth user returned by `supabase.auth.getUser()`. -/
structure AuthUser where
  id : String
deriving DecidableEq

/-- `getCurrentUser()`: null when there is no auth user or the profile
query errors; otherwise the auth user spread together with its profile.
The function performs no `is_active` test. -/
def getCurrentUser (authUser : Option AuthUser) (profileRow : Option Profile) :
    Option User :=
  match authUser with
  | none => none
  | some au =>
    match profileRow with
    | none => none
    | some prof => some { id := au.id, profile := some prof }

/-! ### Middleware page-route protection (`handleProtectedRoute`) -/

/-- Results of `handleProtectedRoute` in the middleware. -/
inductive MiddlewareOutcome where
  | redirectSignin
  | redirectUnauthorized
  | next
deriving DecidableEq

/-- Anchored-prefix regex test: `charsPrefix pat.data s.data` embeds
`/^pat/.test(s)` for the literal patterns the middleware uses. -/
def charsPrefix : List Char → List Char → Bool
  | [], _ => true
  | _ :: _, [] => false
  | a :: as, b :: bs => a == b && charsPrefix as bs

/-- `PROTECTED_ROUTES.ADMIN`, the regex matching paths starting `/admin`. -/
def adminRouteTest (pathname : String) : Bool :=
  charsPrefix ("/admin").data pathname.data

/-- `PROTECTED_ROUTES.FACTORY`, the regex matching paths starting `/factory`. -/
def factoryRouteTest (pathname : String) : Bool :=
  charsPrefix ("/factory").data pathname.data

/-- `handleProtectedRoute`: no session → sign-in redirect; missing or
inactive profile → unauthorized redirect; then the role gates for the
`^/admin` and `^/factory` path patterns. -/
def handleProtectedRoute (session : Option AuthUser) (profileRow : Option Profile)
    (pathname : String) : MiddlewareOutcome :=
  match session with
  | none => .redirectSignin
  | some _ =>
    match profileRow with
    | none => .redirectUnauthorized
    | some prof =>
      if !prof.is_active then .redirectUnauthorized
      else if adminRouteTest pathname && prof.role != "admin" then
        .redirectUnauthorized
      else if factoryRouteTest pathname
          && !(prof.role ∈ ["factory_manager", "factory_operator", "admin"]) then
        .redirectUnauthorized
      else .next

/-! ### Rate limiter (`applyRateLimit` in the middleware) -/

/-- `Math.ceil(x / 1000)` on integer milliseconds. -/
def ceilDivThousand (x : Int) : Int :=
  -((-x).fdiv 1000)

/-- `Math.min(...list)`. The empty case (Infinity in the source) is
unreachable where this is used: the blocked branch guarantees at least
`max ≥ 1` surviving timestamps. -/
def jsMin : List Int → Int
  | [] => 0
  | h :: t => t.foldl min h

/-- The rate-limit response headers; numeric values that the source
stringifies, `none` for a header that is not set. -/
structure RateLimitHeaders where
  limit : Option Int
  remaining : Option Int
  reset : Option Int
  retryAfter : Option Int
deriving DecidableEq

/-- The decision `applyRateLimit` returns for one request. -/
structure RateLimitResult where
  blocked : Bool
  headers : RateLimitHeaders
deriving DecidableEq

/-- One `applyRateLimit` evaluation for a single (client, pathname) key
whose stored timestamp list is `requests`, at time `now` in ms, under the
matched rule `(windowMs, maxReq)`. Also returns the list left in the
store: the prune mutates the stored object in place, so a blocked request
leaves the pruned list; an admitted request appends `now`. -/
def applyRateLimitStep (windowMs maxReq : Nat) (requests : List Int) (now : Int) :
    RateLimitResult × List Int :=
  let windowStart : Int := now - windowMs
  let pruned := requests.filter fun t => t > windowStart
  if pruned.length ≥ maxReq then
    let oldest := jsMin pruned
    let resetTime := oldest + windowMs
    ({ blocked := true,
       headers := { limit := some maxReq, remaining := some 0,
                    reset := some (ceilDivThousand resetTime),
                    retryAfter := some (ceilDivThousand (resetTime - now)) } },
     pruned)
  else
    let updated := pruned ++ [now]
    ({ blocked := false,
       headers := { limit := some maxReq,
                    remaining := some ((maxReq : Int) - updated.length),
                    reset := some (ceilDivThousand (now + windowMs)),
                    retryAfter := none } },
     updated)

/-- Feed a sequence of request times through the limiter for one key,
threading the stored list; returns the per-request decisions and the
final stored list. -/
def runRateLimit (windowMs maxReq : Nat) (state : List Int) :
    List Int → List RateLimitResult × List Int
  | [] => ([], state)
  | t :: ts =>
    let step := applyRateLimitStep windowMs maxReq state t
    let rest := runRateLimit windowMs maxReq step.2 ts
    (step.1 :: rest.1, rest.2)

/-! ### Concrete fixtures used in witnesses and counterexamples -/

/-- An unknown-role profile: active, but its role string is absent from
the role-permission table. -/
def viewerProfile : Profile :=
  { role := "viewer", factory_id := none, is_active := true }

/-- A user carrying the unknown-role profile. -/
def viewerUser : User :=
  { id := "u1", profile := some viewerProfile }

/-- A factory_manager profile that has been deactivated. -/
def inactiveManagerProfile : Profile :=
  { role := "factory_manager", factory_id := some "F1", is_active := false }

/-- An active factory_operator profile bound to factory F1. -/
def operatorProfile : Profile :=
  { role := "factory_operator", factory_id := some "F1", is_active := true }

/-- The user object `getCurrentUser` produces for the inactive manager. -/
def inactiveManagerUser : User :=
  { id := "u2", profile := some inactiveManagerProfile }

/-- The user object for the active F1 operator. -/
def operatorUser : User :=
  { id := "u3", profile := some operatorProfile }

/-- A product owned by factory F1. -/
def productF1 : Product :=
  { id := "p1", factory_id := "F1" }

/-- A product owned by factory F2. -/
def productF2 : Product :=
  { id := "p2", factory_id := "F2" }

/-- A two-tenant product table. -/
def sampleDb : List Product :=
  [productF1, productF2]

/-! ### Supporting lemmas -/

theorem digitChar_isDigit (n : Nat) (h : n < 10) : (Nat.digitChar n).isDigit = true := by
  interval_cases n <;> decide

theorem natDigits_length (k : Nat) :
    ∀ n, 10 ^ k ≤ n → n < 10 ^ (k + 1) → (natDigits n).length = k + 1 := by
  induction k with
  | zero =>
    intro n h1 h2
    have h2' : n < 10 := by simpa using h2
    rw [natDigits]
    simp only [h2', dite_true, List.length_singleton]
  | succ k ih =>
    intro n h1 h2
    have hn : ¬ n < 10 := by
      have : (10 : Nat) ≤ 10 ^ (k + 1) := Nat.le_self_pow (by omega) 10
      omega
    rw [natDigits]
    simp only [hn, dite_false, List.length_append, List.length_cons, List.length_nil]
    have hlo : 10 ^ k ≤ n / 10 := by
      rw [Nat.le_div_iff_mul_le (by norm_num)]
      calc 10 ^ k * 10 = 10 ^ (k + 1) := (pow_succ 10 k).symm
        _ ≤ n := h1
    have hhi : n / 10 < 10 ^ (k + 1) := by
      rw [Nat.div_lt_iff_lt_mul (by norm_num)]
      calc n < 10 ^ (k + 2) := h2
        _ = 10 ^ (k + 1) * 10 := pow_succ 10 (k + 1)
    rw [ih (n / 10) hlo hhi]

theorem natDigits_all_isDigit (n : Nat) : ∀ c ∈ natDigits n, c.isDigit = true := by
  induction n using Nat.strong_induction_on with
  | _ n ih =>
    rw [natDigits]
    by_cases h : n < 10
    · simp only [h, dite_true, List.mem_singleton]
      rintro c rfl
      exact digitChar_isDigit n h
    · simp only [h, dite_false, List.mem_append, List.mem_singleton]
      rintro c (hc | rfl)
      · exact ih (n / 10) (Nat.div_lt_self (by omega) (by omega)) c hc
      · exact digitChar_isDigit (n % 10) (Nat.mod_lt n (by omega))

theorem generateLoop_all_taken (oracle : String → QueryOutcome) (draws : Nat → Nat)
    (h : ∀ c, oracle c = .found) :
    ∀ fuel attempt, generateLoop oracle draws attempt fuel = (.error .exhaustion, fuel) := by
  intro fuel
  induction fuel with
  | zero => intro attempt; rfl
  | succ f ih =>
    intro attempt
    simp only [generateLoop, h, ih]

theorem batchLoop_no_sizeExceeded (oracle : Nat → String → QueryOutcome)
    (draws : Nat → Nat → Nat) :
    ∀ count i, batchLoop oracle draws i count ≠ .error .sizeExceeded := by
  intro count
  induction count with
  | zero => intro i; simp [batchLoop]
  | succ c ih =>
    intro i
    simp only [batchLoop]
    split
    · simp
    · split
      · rename_i e hrec
        intro hc
        injection hc with h2
        subst h2
        exact ih (i + 1) hrec
      · simp

/-! ### Claim theorems -/

/-- C4: if the uniqueness oracle reports every candidate as already
taken, `generateUniqueQRCode` terminates with the exhaustion failure
after exactly 100 oracle queries — it never returns an identifier under
that hypothesis. -/
theorem generate_exhaustion_after_100 (oracle : String → QueryOutcome)
    (draws : Nat → Nat) (h : ∀ c, oracle c = .found) :
    generateUniqueQRCode oracle draws = (.error .exhaustion, 100) := by
  unfold generateUniqueQRCode maxAttempts
  exact generateLoop_all_taken oracle draws h 100 0

/-- Witness for C4 at a concrete all-taken oracle and draw stream. -/
theorem generate_exhaustion_after_100_witness :
    generateUniqueQRCode (fun _ => QueryOutcome.found) (fun _ => 0)
      = (.error .exhaustion, 100) :=
  generate_exhaustion_after_100 (fun _ => QueryOutcome.found) (fun _ => 0)
    (fun _ => rfl)

/-- C6: over the permissions defined on products, the operator set is
contained in the manager set, which is contained in the admin set; and
analytics:read belongs to manager and admin but not to operator. -/
theorem role_permissions_monotone :
    (∀ p ∈ productsPermissions,
      (p ∈ rolePermissions ("factory_operator") →
        p ∈ rolePermissions ("factory_manager"))
      ∧ (p ∈ rolePermissions ("factory_manager") →
        p ∈ rolePermissions ("admin")))
    ∧ "analytics:read" ∈ rolePermissions ("factory_manager")
    ∧ "analytics:read" ∈ rolePermissions ("admin")
    ∧ "analytics:read" ∉ rolePermissions ("factory_operator") := by
  decide

/-- Witness for C6 at the concrete permission products:create. -/
theorem role_permissions_monotone_witness :
    "products:create" ∈ rolePermissions ("factory_manager")
    ∧ "products:create" ∈ rolePermissions ("admin") :=
  ⟨(role_permissions_monotone.1 ("products:create") (by decide)).1 (by decide),
   (role_permissions_monotone.1 ("products:create") (by decide)).2 (by decide)⟩

/-- C10: hasPermission is total and fails closed — false on a null user,
on a user without a profile, and on a role absent from the
role-permission table; and it returns true exactly when the permission is
a member of the static list of the profile's role. -/
theorem hasPermission_fails_closed :
    (∀ p, hasPermission none p = false)
    ∧ (∀ p u, u.profile = none → hasPermission (some u) p = false)
    ∧ (∀ p u prof, u.profile = some prof →
        prof.role ∉ (["admin", "factory_manager", "factory_operator"] : List String) →
        hasPermission (some u) p = false)
    ∧ (∀ u p, hasPermission u p = true ↔
        ∃ uu prof, u = some uu ∧ uu.profile = some prof
          ∧ p ∈ rolePermissions prof.role) := by
  refine ⟨fun p => rfl, ?_, ?_, ?_⟩
  · intro p u h
    simp [hasPermission, h]
  · intro p u prof h hr
    simp only [List.mem_cons, List.not_mem_nil, or_false, not_or] at hr
    obtain ⟨h1, h2, h3⟩ := hr
    simp [hasPermission, h, rolePermissions, h1, h2, h3]
  · intro u p
    cases u with
    | none => simp [hasPermission]
    | some uu =>
      cases hprof : uu.profile with
      | none => simp [hasPermission, hprof]
      | some prof =>
        simp only [hasPermission, hprof, decide_eq_true_eq, Option.some.injEq]
        constructor
        · intro hmem
          exact ⟨uu, prof, rfl, hprof, hmem⟩
        · rintro ⟨uu', prof', huu, hprof', hmem⟩
          cases huu
          rw [hprof] at hprof'
          cases hprof'
          exact hmem

/-- C8: the validator accepts a well-formed code and rejects the three
near-miss shapes named by the spec (five digits, lowercase, seven
digits); and every candidate the generator can draw is an integer in
[100000, 999999] whose rendered code passes the validator. -/
theorem qr_format_invariant :
    validateQRCodeFormat ("CS-123456") = true
    ∧ validateQRCodeFormat ("CS-12345") = false
    ∧ validateQRCodeFormat ("cs-123456") = false
    ∧ validateQRCodeFormat ("CS-1234567") = false
    ∧ ∀ draw : Nat, 100000 ≤ randomSixDigit draw ∧ randomSixDigit draw ≤ 999999
        ∧ validateQRCodeFormat (qrCandidate (randomSixDigit draw)) = true := by
  refine ⟨by decide, by decide, by decide, by decide, ?_⟩
  intro draw
  have hmod : draw % 900000 < 900000 := Nat.mod_lt draw (by norm_num)
  have h1 : 100000 ≤ randomSixDigit draw := by unfold randomSixDigit; omega
  have h2 : randomSixDigit draw ≤ 999999 := by unfold randomSixDigit; omega
  refine ⟨h1, h2, ?_⟩
  have e5 : (10 : Nat) ^ 5 = 100000 := by norm_num
  have e6 : (10 : Nat) ^ (5 + 1) = 1000000 := by norm_num
  have hlen : (natDigits (randomSixDigit draw)).length = 6 :=
    natDigits_length 5 _ (by omega) (by omega)
  have heq : validateQRCodeFormat (qrCandidate (randomSixDigit draw))
      = ((natDigits (randomSixDigit draw)).length == 6
        && (natDigits (randomSixDigit draw)).all (·.isDigit)) := rfl
  rw [heq, hlen]
  simp only [beq_self_eq_true, Bool.true_and, List.all_eq_true, decide_eq_true_eq]
  intro c hc
  exact natDigits_all_isDigit _ c hc

/-- Witness for C10 at a concrete unknown-role user. -/
theorem hasPermission_fails_closed_witness :
    hasPermission (some viewerUser) ("products:read") = false :=
  hasPermission_fails_closed.2.2.1 ("products:read") viewerUser viewerProfile
    rfl (by decide)

/-- C5: an authenticated caller lacking products:create receives the
insufficient-permission outcome from POST /api/products for every request
body, including one naming a mismatching tenant — the permission check
runs strictly before anything tenant-related, and no tenant-related
outcome exists at the authorization stage. -/
theorem permission_check_precedes_tenant (u : User)
    (bodyFactoryId bodyQrCode : Option String)
    (oracle : String → QueryOutcome) (draws : Nat → Nat)
    (precheckExists : String → Bool) (insert : String → InsertOutcome)
    (h : hasPermission (some u) ("products:create") = false) :
    productsPOST (some u) bodyFactoryId bodyQrCode oracle draws precheckExists insert
      = .insufficientPermissions403 := by
  unfold productsPOST routeAuthStage
  simp [h]

/-- Witness for C5: the unknown-role user, supplying a foreign tenant in
the body, still gets the permission error. -/
theorem permission_check_precedes_tenant_witness :
    productsPOST (some viewerUser) (some "F2") none (fun _ => QueryOutcome.noRow)
      (fun _ => 0) (fun _ => false) (fun _ => InsertOutcome.ok)
      = .insufficientPermissions403 :=
  permission_check_precedes_tenant viewerUser (some "F2") none _ _ _ _ (by decide)

/-- C2: the product list applies the caller's own factory_id filter for
every non-admin profile — the result only contains rows of the caller's
factory and is unchanged by any client-supplied factory filter — while
for an admin profile the client-supplied filter is the one applied. -/
theorem listProducts_tenant_isolation :
    (∀ (db : List Product) (prof : Profile) (clientFid : Option String) (p : Product),
        prof.role ≠ "admin" →
        (p ∈ listProducts db prof clientFid → some p.factory_id = prof.factory_id)
          ∧ listProducts db prof clientFid = listProducts db prof none)
    ∧ (∀ (db : List Product) (prof : Profile) (c : String) (p : Product),
        prof.role = "admin" →
        appliedFactoryFilter prof (some c) = some (some c)
          ∧ (p ∈ listProducts db prof (some c) → p.factory_id = c)) := by
  constructor
  · intro db prof clientFid p hrole
    have hf : appliedFactoryFilter prof clientFid = some prof.factory_id := by
      simp [appliedFactoryFilter, hrole]
    have hf0 : appliedFactoryFilter prof none = some prof.factory_id := by
      simp [appliedFactoryFilter, hrole]
    constructor
    · intro hp
      simp only [listProducts, hf] at hp
      have := (List.mem_filter.mp hp).2
      simpa using this
    · simp only [listProducts, hf, hf0]
  · intro db prof c p hrole
    have hf : appliedFactoryFilter prof (some c) = some (some c) := by
      simp [appliedFactoryFilter, hrole]
    refine ⟨hf, ?_⟩
    intro hp
    simp only [listProducts, hf] at hp
    have := (List.mem_filter.mp hp).2
    simpa using this

/-- Witness for C2: a two-factory database, the F1 operator asking for F2. -/
theorem listProducts_tenant_isolation_witness :
    some productF1.factory_id = operatorProfile.factory_id
    ∧ listProducts sampleDb operatorProfile (some "F2")
        = listProducts sampleDb operatorProfile none :=
  ⟨(listProducts_tenant_isolation.1 sampleDb operatorProfile (some "F2") productF1
      (by decide)).1 (by decide),
   (listProducts_tenant_isolation.1 sampleDb operatorProfile (some "F2") productF1
      (by decide)).2⟩

/-- C7: the limiter behaves as a true sliding window on one
(client, route) key: with max 5 and a 1000 ms window, five requests at
t = 0 are admitted with decreasing remaining counts, the sixth at t = 0
is rejected carrying the limit, remaining, reset and Retry-After values
(Retry-After being the seconds until the oldest surviving timestamp plus
the window), and a request at t = 1001, after the earlier ones aged out,
is admitted again. -/
theorem rate_limiter_sliding_window :
    runRateLimit 1000 5 [] [0, 0, 0, 0, 0, 0, 1001]
      = ([{ blocked := false, headers := { limit := some 5, remaining := some 4, reset := some 1, retryAfter := none } },
          { blocked := false, headers := { limit := some 5, remaining := some 3, reset := some 1, retryAfter := none } },
          { blocked := false, headers := { limit := some 5, remaining := some 2, reset := some 1, retryAfter := none } },
          { blocked := false, headers := { limit := some 5, remaining := some 1, reset := some 1, retryAfter := none } },
          { blocked := false, headers := { limit := some 5, remaining := some 0, reset := some 1, retryAfter := none } },
          { blocked := true, headers := { limit := some 5, remaining := some 0, reset := some 1, retryAfter := some 1 } },
          { blocked := false, headers := { limit := some 5, remaining := some 4, reset := some 3, retryAfter := none } }],
         [1001]) := by
  decide

/-- C3 failing input, evaluated: `getCurrentUser` performs no is_active
test, so a deactivated factory_manager still resolves to an authenticated
user, and POST /api/products lets that principal create a product — while
the page-route middleware, given the same profile, does redirect to the
unauthorized page. The API path contradicts treating an inactive
principal as unauthenticated for all authorization decisions. -/
theorem inactive_principal_api_not_denied :
    getCurrentUser (some { id := "u2" }) (some inactiveManagerProfile)
      = some inactiveManagerUser
    ∧ productsPOST (getCurrentUser (some { id := "u2" }) (some inactiveManagerProfile))
        none none (fun _ => QueryOutcome.noRow) (fun _ => 0) (fun _ => false)
        (fun _ => InsertOutcome.ok)
        = .result (.created201 (qrCandidate (randomSixDigit 0)) (some "F1"))
    ∧ handleProtectedRoute (some { id := "u2" }) (some inactiveManagerProfile)
        ("/factory/dashboard") = .redirectUnauthorized :=
  ⟨rfl, rfl, rfl⟩

/-- C1 failing input, evaluated: the generator's first candidate passes
its existence check (one oracle query — 99 attempts never used), the
route's own pre-insert check also sees it free, and the insert then hits
the duplicate-key conflict of the qr_code UNIQUE constraint: the handler
surfaces the 500 'Failed to create product' at once instead of retrying
the generate-and-insert cycle. -/
theorem insert_conflict_surfaces_500 :
    productsPOST (some operatorUser) none none
      (fun _ => QueryOutcome.noRow) (fun _ => 0) (fun _ => false)
      (fun _ => InsertOutcome.duplicateKey)
      = .result .failedToCreate500
    ∧ (generateUniqueQRCode (fun _ => QueryOutcome.noRow) (fun _ => 0)).2 = 1 :=
  ⟨rfl, rfl⟩

/-- C9: the synchronous generation endpoint rejects type batch with a
count above 100 before any generation (the outcome is the 400 for every
oracle), admits counts up to 100 past that check; and the batch generator
fails on counts above 1000 without consulting any oracle, while counts up
to 1000 are never rejected by its ceiling check. -/
theorem batch_ceilings :
    (∀ (count : Nat) (oracle : Nat → String → QueryOutcome) (draws : Nat → Nat → Nat),
        count > 100 → qrGenerateBatchPOST count oracle draws = .badRequest400)
    ∧ (∀ (count : Nat) (oracle : Nat → String → QueryOutcome) (draws : Nat → Nat → Nat),
        count ≤ 100 → qrGenerateBatchPOST count oracle draws ≠ .badRequest400)
    ∧ (∀ (count : Nat) (oracle : Nat → String → QueryOutcome) (draws : Nat → Nat → Nat),
        count > 1000 → generateBatchQRCodes count oracle draws = .error .sizeExceeded)
    ∧ (∀ (count : Nat) (oracle : Nat → String → QueryOutcome) (draws : Nat → Nat → Nat),
        count ≤ 1000 → generateBatchQRCodes count oracle draws ≠ .error .sizeExceeded) := by
  refine ⟨?_, ?_, ?_, ?_⟩
  · intro count oracle draws h
    simp [qrGenerateBatchPOST, syncBatchRejected, h]
  · intro count oracle draws h
    simp only [qrGenerateBatchPOST, syncBatchRejected]
    rw [if_neg (by simp; omega)]
    split <;> simp
  · intro count oracle draws h
    simp [generateBatchQRCodes, h]
  · intro count oracle draws h
    unfold generateBatchQRCodes
    rw [if_neg (by omega)]
    exact batchLoop_no_sizeExceeded oracle draws count 0

/-- Witness for C9 at the boundary counts 101/100 and 1001/1000. -/
theorem batch_ceilings_witness :
    qrGenerateBatchPOST 101 (fun _ _ => QueryOutcome.found) (fun _ _ => 0)
      = .badRequest400
    ∧ qrGenerateBatchPOST 100 (fun _ _ => QueryOutcome.found) (fun _ _ => 0)
      ≠ .badRequest400
    ∧ generateBatchQRCodes 1001 (fun _ _ => QueryOutcome.found) (fun _ _ => 0)
      = .error .sizeExceeded
    ∧ generateBatchQRCodes 1000 (fun _ _ => QueryOutcome.found) (fun _ _ => 0)
      ≠ .error .sizeExceeded :=
  ⟨batch_ceilings.1 101 _ _ (by decide),
   batch_ceilings.2.1 100 _ _ (by decide),
   batch_ceilings.2.2.1 1001 _ _ (by decide),
   batch_ceilings.2.2.2 1000 _ _ (by decide)⟩

end ConfirmSure
